import Mathlib

/-!
Verification development for the face-detection thumbnail selector
(file-server/scripts/face_detect_thumbnail.py).

The script is a single bounded scan: open a video, sample frames at fixed
time intervals starting at start_time, run face and eye cascade detectors
on each sampled frame, score each detected face, and write a resized JPEG
thumbnail of the first frame whose first qualifying face clears the
threshold.

The embedding below translates the script faithfully:
  - machine floats of the script are modelled as exact rationals;
  - the video decoder and the cascade classifiers are black boxes: a Video
    carries, for every frame index, the decode result together with the
    face rectangles the face cascade would emit on that frame (in detector
    output order) and, for each face, the number of eye rectangles the eye
    cascade would emit on its grayscale region of interest;
  - Python int() (truncation toward zero) is pyInt;
  - the while loop over current_time is the structural recursion scanList
    over the list of sampled timestamps, which for a positive interval is
    exactly the sequence start_time, start_time + interval, ... while
    below duration;
  - the cv2 calls cvtColor, resize and imwrite are modelled on an abstract
    Image carrying dimensions and a pixel kind, and the imwrite call is
    recorded in the outcome;
  - cap.release() calls are recorded in the run result.
-/

namespace FaceThumb

attribute [local semireducible] Rat.mul Rat.inv Rat.add Rat.sub Rat.ofScientific

/-- Pixel format of an image buffer (BGR color as decoded, or grayscale). -/
inductive PixelKind where
  | bgr : PixelKind
  | gray : PixelKind
deriving DecidableEq

/-- An abstract pixel buffer: dimensions plus pixel format.
frame.shape[0] is the height, frame.shape[1] is the width. -/
structure Image where
  width : Nat
  height : Nat
  kind : PixelKind
deriving DecidableEq

/-- cv2.cvtColor(img, COLOR_BGR2GRAY): same dimensions, grayscale pixels. -/
def cvtColorGray (img : Image) : Image :=
  { img with kind := PixelKind.gray }

/-- cv2.resize(img, (w, h)): new dimensions, same pixel format. -/
def cvResize (img : Image) (w h : Nat) : Image :=
  { width := w, height := h, kind := img.kind }

/-- One face rectangle (x, y, w, h) from the face cascade, together with
the number of eye rectangles the eye cascade finds inside its grayscale
region of interest (a black-box detector output). -/
structure FaceDet where
  x : Nat
  y : Nat
  w : Nat
  h : Nat
  eyes : Nat
deriving DecidableEq

/-- A video as the scan observes it: whether cv2.VideoCapture opened it,
CAP_PROP_FRAME_COUNT, CAP_PROP_FPS, and for each frame index the decode
result of cap.set(CAP_PROP_POS_FRAMES, i) followed by cap.read():
none models ret = False, some (img, faces) gives the decoded color frame
and the face-cascade output on its grayscale conversion. -/
structure Video where
  isOpened : Bool
  total_frames : Nat
  fps : Rat
  decode : Int → Option (Image × List FaceDet)

/-- Python int() on a real value: truncation toward zero. -/
def pyInt (q : Rat) : Int :=
  if 0 ≤ q then ⌊q⌋ else ⌈q⌉

/-- duration = total_frames / fps if fps > 0 else 0. -/
def duration (v : Video) : Rat :=
  if 0 < v.fps then (v.total_frames : Rat) / v.fps else 0

/-- frame_idx = int(current_time * fps). -/
def frameIdxAt (v : Video) (t : Rat) : Int :=
  pyInt (t * v.fps)

/-- MIN_FACE_SIZE = 0.09: the face must cover at least 9 percent of the
frame. -/
def MIN_FACE_SIZE : Rat := 9 / 100

/-- MIN_SCORE = 75: minimum total score required. -/
def MIN_SCORE : Rat := 75

/-- area_ratio = face_area / frame_area, with face_area = w * h and
frame_area = frame.shape[0] * frame.shape[1]. -/
def areaRatioOf (f : FaceDet) (img : Image) : Rat :=
  ((f.w * f.h : Nat) : Rat) / ((img.height * img.width : Nat) : Rat)

/-- size_score = min(30, area_ratio * 300). -/
def sizeScore (r : Rat) : Rat :=
  min 30 (r * 300)

/-- center_dist = (center_dist_x + center_dist_y) / 2, where each term is
the absolute offset of the face center from the frame center, normalized
by the frame width resp. height. -/
def centerDistOf (f : FaceDet) (img : Image) : Rat :=
  let face_center_x : Rat := (f.x : Rat) + (f.w : Rat) / 2
  let face_center_y : Rat := (f.y : Rat) + (f.h : Rat) / 2
  let frame_center_x : Rat := (img.width : Rat) / 2
  let frame_center_y : Rat := (img.height : Rat) / 2
  let center_dist_x : Rat := |face_center_x - frame_center_x| / (img.width : Rat)
  let center_dist_y : Rat := |face_center_y - frame_center_y| / (img.height : Rat)
  (center_dist_x + center_dist_y) / 2

/-- position_score = max(0, 20 * (1 - center_dist * 2)). -/
def positionScore (d : Rat) : Rat :=
  max 0 (20 * (1 - d * 2))

/-- frontal_score = 50, awarded only when at least two eyes are found. -/
def frontalScore : Rat := 50

/-- total_score = size_score + position_score + frontal_score, as a
function of the two derived metrics. -/
def scoreOf (r d : Rat) : Rat :=
  sizeScore r + positionScore d + frontalScore

/-- total_score of a concrete face in a concrete frame. -/
def totalScore (f : FaceDet) (img : Image) : Rat :=
  scoreOf (areaRatioOf f img) (centerDistOf f img)

/-- The size gate: the code rejects the face when area_ratio < MIN_FACE_SIZE. -/
def sizeGateRejects (r : Rat) : Bool :=
  decide (r < MIN_FACE_SIZE)

/-- The score gate: the code accepts when total_score >= MIN_SCORE. -/
def scoreGateAccepts (s : Rat) : Bool :=
  decide (MIN_SCORE ≤ s)

/-- The per-face acceptance test, in the control order of the loop body:
reject when the size gate fires; otherwise, when at least 2 eyes were
found, accept iff the score gate accepts; faces with fewer than 2 eyes
are rejected. -/
def faceQualifies (img : Image) (f : FaceDet) : Bool :=
  if sizeGateRejects (areaRatioOf f img) then false
  else if 2 ≤ f.eyes then scoreGateAccepts (totalScore f img)
  else false

/-- The for-loop over the detector output: the first face, in detector
output order, that clears all gates. -/
def findQualifyingFace (img : Image) (faces : List FaceDet) : Option FaceDet :=
  faces.find? (fun f => faceQualifies img f)

/-- A recorded cv2.imwrite call: destination path, image written, and the
IMWRITE_JPEG_QUALITY parameter. -/
structure ImwriteCall where
  path : String
  img : Image
  quality : Nat
deriving DecidableEq

/-- target_height = int(height * (target_width / width)) with
target_width = 320. -/
def thumbHeight (img : Image) : Nat :=
  (pyInt ((img.height : Rat) * (320 / (img.width : Rat)))).toNat

/-- The thumbnail write on the success path: resize the original color
frame to width 320 and the truncated proportional height, JPEG quality 85. -/
def thumbWrite (out : String) (img : Image) : ImwriteCall :=
  { path := out, img := cvResize img 320 (thumbHeight img), quality := 85 }

/-- Outcome of the scan part of detect_best_face_frame. -/
inductive SelOutcome where
  | openFail : SelOutcome
  | noFace : Nat → SelOutcome
  | found : Int → FaceDet → ImwriteCall → Nat → SelOutcome
deriving DecidableEq

/-- The while loop over the sampled timestamps, carrying frames_checked.
Each iteration: break when frame_idx >= total_frames; skip the timestamp
when the read fails; otherwise convert to grayscale, run the detectors
(their outputs are the data of the Video), and either return the found
outcome on the first qualifying face or advance to the next timestamp. -/
def scanList (v : Video) (out : String) : List Rat → Nat → SelOutcome
  | [], checked => SelOutcome.noFace checked
  | t :: ts, checked =>
    if (v.total_frames : Int) ≤ frameIdxAt v t then SelOutcome.noFace checked
    else
      match v.decode (frameIdxAt v t) with
      | none => scanList v out ts checked
      | some (img, faces) =>
        match findQualifyingFace img faces with
        | some f =>
            SelOutcome.found (frameIdxAt v t) f (thumbWrite out img) (checked + 1)
        | none => scanList v out ts (checked + 1)

/-- Number of loop iterations: the count of k with
start_time + k * interval < duration, which for a positive interval is
the nonnegative part of the ceiling of (duration - start_time) / interval. -/
def numSamples (v : Video) (start interval : Rat) : Nat :=
  if 0 < interval then (⌈(duration v - start) / interval⌉).toNat else 0

/-- The k-th sampled timestamp: current_time after k increments. -/
def sampleTime (start interval : Rat) (k : Nat) : Rat :=
  start + (k : Rat) * interval

/-- The sampled timestamps in scan order. -/
def sampleTimes (v : Video) (start interval : Rat) : List Rat :=
  (List.range (numSamples v start interval)).map (sampleTime start interval)

/-- Whether the sampled frame at timestamp t yields a qualifying face:
the read succeeds and some face in detector order clears all gates. -/
def frameQualifies (v : Video) (t : Rat) : Bool :=
  match v.decode (frameIdxAt v t) with
  | none => false
  | some (img, faces) => (findQualifyingFace img faces).isSome

/-- Whether the outcome is a successful selection. -/
def SelOutcome.isFound : SelOutcome → Bool
  | SelOutcome.found _ _ _ _ => true
  | _ => false

/-- The source frame index of the selected frame, if any. -/
def SelOutcome.frameOf : SelOutcome → Option Int
  | SelOutcome.found i _ _ _ => some i
  | _ => none

/-- The imwrite call the outcome performed, if any: the image write
happens only on the success path of the loop. -/
def SelOutcome.writeOf : SelOutcome → Option ImwriteCall
  | SelOutcome.found _ _ w _ => some w
  | _ => none

/-- Result of one call of detect_best_face_frame: the outcome, whether the
capture opened, and whether cap.release() was invoked. -/
structure RunResult where
  outcome : SelOutcome
  opened : Bool
  releaseCalled : Bool

/-- Boolean return value of detect_best_face_frame. -/
def RunResult.success (r : RunResult) : Bool :=
  r.outcome.isFound

/-- The imwrite call the run performed, if any. -/
def RunResult.written (r : RunResult) : Option ImwriteCall :=
  r.outcome.writeOf

/-- The source frame index of the selected frame, if any. -/
def RunResult.selectedFrame (r : RunResult) : Option Int :=
  r.outcome.frameOf

/-- A handle leak: the capture opened but no release call was made. -/
def RunResult.handleLeaked (r : RunResult) : Bool :=
  r.opened && !r.releaseCalled

/-- detect_best_face_frame(video_path, output_path, start_time, interval):
return False at once when the capture does not open (no release call is
made there, and no decoder session is held); otherwise run the scan loop,
which calls cap.release() both on the success return and after loop
exhaustion. -/
def selectFace (v : Video) (out : String) (start interval : Rat) : RunResult :=
  if v.isOpened then
    { outcome := scanList v out (sampleTimes v start interval) 0
      opened := true
      releaseCalled := true }
  else
    { outcome := SelOutcome.openFail, opened := false, releaseCalled := false }

/-- The __main__ block: exit 1 on wrong argument count, exit 1 when the
video file does not exist, else run the selector with the default
start_time = 10 and interval = 2 and exit 0 on success, 1 otherwise. -/
def mainExit (argcOk videoExists : Bool) (v : Video) (out : String) : Nat :=
  if !argcOk then 1
  else if !videoExists then 1
  else if (selectFace v out 10 2).success then 0 else 1

/-! Concrete instances used to evaluate the model on explicit inputs. -/

/-- A concrete output path. -/
def outP : String := "thumb.jpg"

/-- A 640 x 360 color frame with no detectable faces. -/
def imgPlain : Image := { width := 640, height := 360, kind := PixelKind.bgr }

/-- A 30 second video at 30 fps (900 frames) in which every frame decodes
and no frame contains any face. -/
def vScan30 : Video :=
  { isOpened := true, total_frames := 900, fps := 30,
    decode := fun i => if 0 ≤ i ∧ i < 900 then some (imgPlain, []) else none }

/-- A 960 x 701 color frame. -/
def img960 : Image := { width := 960, height := 701, kind := PixelKind.bgr }

/-- A large, nearly centered face with both eyes found, inside img960. -/
def face960 : FaceDet := { x := 330, y := 200, w := 300, h := 300, eyes := 2 }

/-- A 30 second video at 30 fps whose frame 300 (the first sampled frame
for the default parameters) is img960 with the qualifying face face960. -/
def vRound : Video :=
  { isOpened := true, total_frames := 900, fps := 30,
    decode := fun i => if i = 300 then some (img960, [face960]) else none }

/-- A 1920 x 1080 color frame. -/
def img1920 : Image := { width := 1920, height := 1080, kind := PixelKind.bgr }

/-- A centered 700 x 700 face with both eyes found, inside img1920. -/
def faceBig : FaceDet := { x := 610, y := 190, w := 700, h := 700, eyes := 2 }

/-- A 30 second video at 30 fps whose frame 300 is img1920 with faceBig. -/
def vQual : Video :=
  { isOpened := true, total_frames := 900, fps := 30,
    decode := fun i => if i = 300 then some (img1920, [faceBig]) else none }

/-- A 100 x 100 frame. -/
def img100 : Image := { width := 100, height := 100, kind := PixelKind.bgr }

/-- A centered 30 x 30 face with both eyes found: its area covers exactly
9 percent of img100, the boundary of the size gate. -/
def face30 : FaceDet := { x := 35, y := 35, w := 30, h := 30, eyes := 2 }

/-- A video that opens but reports fps = 0. -/
def vZeroFps : Video :=
  { isOpened := true, total_frames := 500, fps := 0, decode := fun _ => none }

/-! Helper lemmas about the scan loop. -/

/-- A sample index below the sample count corresponds to a timestamp
strictly below the duration: the loop body runs exactly for these. -/
theorem sampleTime_lt_duration (v : Video) (start interval : Rat) (k : Nat)
    (hk : k < numSamples v start interval) :
    sampleTime start interval k < duration v := by
  unfold numSamples at hk
  by_cases hi : 0 < interval
  · rw [if_pos hi] at hk
    have h1 : ((k : Int) : Rat) < (duration v - start) / interval := by
      exact_mod_cast Int.lt_ceil.mp (Int.lt_toNat.mp hk)
    have h2 : (k : Rat) < (duration v - start) / interval := by
      exact_mod_cast h1
    have h3 : (k : Rat) * interval < duration v - start := (lt_div_iff₀ hi).mp h2
    unfold sampleTime
    linarith
  · rw [if_neg hi] at hk
    exact absurd hk (Nat.not_lt_zero k)

/-- With a nonnegative start time, every sampled timestamp below the
duration has a frame index strictly below the total frame count, so the
defensive break in the loop never fires for it. -/
theorem frameIdx_lt_total (v : Video) (start interval : Rat) (k : Nat)
    (hs : 0 ≤ start) (hk : k < numSamples v start interval) :
    frameIdxAt v (sampleTime start interval k) < (v.total_frames : Int) := by
  have hlt := sampleTime_lt_duration v start interval k hk
  have hi : 0 < interval := by
    by_contra h
    unfold numSamples at hk
    rw [if_neg h] at hk
    exact absurd hk (Nat.not_lt_zero k)
  have ht0 : 0 ≤ sampleTime start interval k := by
    unfold sampleTime
    have : (0 : Rat) ≤ (k : Rat) * interval :=
      mul_nonneg (by positivity) hi.le
    linarith
  have hfps : 0 < v.fps := by
    by_contra h
    unfold duration at hlt
    rw [if_neg h] at hlt
    linarith
  have hx : sampleTime start interval k * v.fps < (v.total_frames : Rat) := by
    unfold duration at hlt
    rw [if_pos hfps] at hlt
    calc sampleTime start interval k * v.fps
        < ((v.total_frames : Rat) / v.fps) * v.fps :=
          mul_lt_mul_of_pos_right hlt hfps
      _ = (v.total_frames : Rat) := div_mul_cancel₀ _ (ne_of_gt hfps)
  unfold frameIdxAt pyInt
  rw [if_pos (mul_nonneg ht0 hfps.le)]
  exact Int.floor_lt.mpr (by exact_mod_cast hx)

/-- The sampled timestamp list splits at any index below the count. -/
theorem sampleTimes_decomp (v : Video) (start interval : Rat) (k : Nat)
    (hk : k < numSamples v start interval) :
    ∃ rest, sampleTimes v start interval =
      (List.range k).map (sampleTime start interval) ++
        sampleTime start interval k :: rest := by
  refine ⟨(List.range (numSamples v start interval - k - 1)).map
    (fun j => sampleTime start interval (k + (j + 1))), ?_⟩
  unfold sampleTimes
  rw [show numSamples v start interval =
    k + ((numSamples v start interval - k - 1) + 1) by omega]
  rw [List.range_add, List.map_append, List.range_succ_eq_map]
  simp [List.map_map, Function.comp_def, Nat.add_comm, Nat.add_left_comm]

/-- A qualifying sampled frame decodes to a frame in which some face in
detector order clears all gates. -/
theorem frameQualifies_elim {v : Video} {t : Rat}
    (hq : frameQualifies v t = true) :
    ∃ img faces f, v.decode (frameIdxAt v t) = some (img, faces) ∧
      findQualifyingFace img faces = some f := by
  unfold frameQualifies at hq
  cases hdec : v.decode (frameIdxAt v t) with
  | none => rw [hdec] at hq; simp at hq
  | some p =>
    obtain ⟨img, faces⟩ := p
    rw [hdec] at hq
    simp only [Option.isSome_iff_exists] at hq
    obtain ⟨f, hf⟩ := hq
    exact ⟨img, faces, f, rfl, hf⟩

/-- One unfolding step of the loop on a nonempty timestamp list. -/
theorem scanList_cons (v : Video) (out : String) (t : Rat) (ts : List Rat)
    (c : Nat) :
    scanList v out (t :: ts) c =
      if (v.total_frames : Int) ≤ frameIdxAt v t then SelOutcome.noFace c
      else
        match v.decode (frameIdxAt v t) with
        | none => scanList v out ts c
        | some (img, faces) =>
          match findQualifyingFace img faces with
          | some f =>
              SelOutcome.found (frameIdxAt v t) f (thumbWrite out img) (c + 1)
          | none => scanList v out ts (c + 1) := rfl

/-- Scanning past a prefix of non-qualifying, non-breaking timestamps
reduces to scanning the remainder, with some updated checked counter. -/
theorem scanList_append_skip (v : Video) (out : String) (rest : List Rat) :
    ∀ (pre : List Rat) (c : Nat),
      (∀ t ∈ pre, frameIdxAt v t < (v.total_frames : Int) ∧
        frameQualifies v t = false) →
      ∃ c2, scanList v out (pre ++ rest) c = scanList v out rest c2 := by
  intro pre
  induction pre with
  | nil => exact fun c _ => ⟨c, rfl⟩
  | cons t pre ih =>
    intro c h
    have ht := h t (List.mem_cons_self t pre)
    have htail := fun u hu => h u (List.mem_cons_of_mem t hu)
    rw [List.cons_append, scanList_cons, if_neg (not_le.mpr ht.1)]
    cases hdec : v.decode (frameIdxAt v t) with
    | none => exact ih c htail
    | some p =>
      obtain ⟨img, faces⟩ := p
      have hq : (findQualifyingFace img faces).isSome = false := by
        have h2 := ht.2
        unfold frameQualifies at h2
        rw [hdec] at h2
        exact h2
      have hnone : findQualifyingFace img faces = none := by
        cases hfq : findQualifyingFace img faces with
        | none => rfl
        | some f => rw [hfq] at hq; simp at hq
      simp only [hnone]
      exact ih (c + 1) htail

/-- A non-breaking timestamp whose frame holds a qualifying face makes the
loop return the found outcome at once, with the first qualifying face in
detector order and the recorded thumbnail write. -/
theorem scanList_cons_found (v : Video) (out : String) (t : Rat)
    (ts : List Rat) (c : Nat) (img : Image) (faces : List FaceDet)
    (f : FaceDet) (hidx : frameIdxAt v t < (v.total_frames : Int))
    (hdec : v.decode (frameIdxAt v t) = some (img, faces))
    (hf : findQualifyingFace img faces = some f) :
    scanList v out (t :: ts) c =
      SelOutcome.found (frameIdxAt v t) f (thumbWrite out img) (c + 1) := by
  rw [scanList_cons, if_neg (not_le.mpr hidx), hdec]
  simp [hf]

/-- When no timestamp of the list yields a qualifying face, the loop ends
in the no-face outcome: no found outcome and no recorded write. -/
theorem scanList_noqual (v : Video) (out : String) :
    ∀ (ts : List Rat) (c : Nat),
      (∀ t ∈ ts, frameQualifies v t = false) →
      ∃ c2, scanList v out ts c = SelOutcome.noFace c2 := by
  intro ts
  induction ts with
  | nil => exact fun c _ => ⟨c, rfl⟩
  | cons t ts ih =>
    intro c h
    rw [scanList_cons]
    by_cases hb : (v.total_frames : Int) ≤ frameIdxAt v t
    · rw [if_pos hb]; exact ⟨c, rfl⟩
    · rw [if_neg hb]
      cases hdec : v.decode (frameIdxAt v t) with
      | none => exact ih c (fun u hu => h u (List.mem_cons_of_mem t hu))
      | some p =>
        obtain ⟨img, faces⟩ := p
        have hq : (findQualifyingFace img faces).isSome = false := by
          have h2 := h t (List.mem_cons_self t ts)
          unfold frameQualifies at h2
          rw [hdec] at h2
          exact h2
        have hnone : findQualifyingFace img faces = none := by
          cases hfq : findQualifyingFace img faces with
          | none => rfl
          | some f => rw [hfq] at hq; simp at hq
        simp only [hnone]
        exact ih (c + 1) (fun u hu => h u (List.mem_cons_of_mem t hu))

/-- Inversion on a found outcome: the loop only ever returns found for a
decoded frame whose face list contains the returned face as its first
qualifying entry, and the recorded write is exactly the thumbnail write of
that decoded color frame. -/
theorem scanList_found_inv (v : Video) (out : String) :
    ∀ (ts : List Rat) (c : Nat) (i : Int) (f : FaceDet) (wr : ImwriteCall)
      (c2 : Nat),
      scanList v out ts c = SelOutcome.found i f wr c2 →
      ∃ img faces, v.decode i = some (img, faces) ∧
        findQualifyingFace img faces = some f ∧ wr = thumbWrite out img := by
  intro ts
  induction ts with
  | nil =>
    intro c i f wr c2 h
    exact absurd h (by simp [scanList])
  | cons t ts ih =>
    intro c i f wr c2 h
    rw [scanList_cons] at h
    by_cases hb : (v.total_frames : Int) ≤ frameIdxAt v t
    · rw [if_pos hb] at h
      exact absurd h (by simp)
    · rw [if_neg hb] at h
      cases hdec : v.decode (frameIdxAt v t) with
      | none =>
        rw [hdec] at h
        exact ih c i f wr c2 h
      | some p =>
        obtain ⟨img, faces⟩ := p
        rw [hdec] at h
        cases hfq : findQualifyingFace img faces with
        | none =>
          simp only [hfq] at h
          exact ih (c + 1) i f wr c2 h
        | some f2 =>
          simp only [hfq] at h
          injection h with hi hf2 hw hc
          subst hi
          subst hf2
          exact ⟨img, faces, hdec, hfq, hw.symm⟩

/-- The outcome projections that matter for selection do not depend on the
output path argument: the path only names the write destination. -/
theorem scanList_indep (v : Video) (o1 o2 : String) :
    ∀ (ts : List Rat) (c : Nat),
      (scanList v o1 ts c).frameOf = (scanList v o2 ts c).frameOf ∧
      (scanList v o1 ts c).isFound = (scanList v o2 ts c).isFound := by
  intro ts
  induction ts with
  | nil => exact fun _ => ⟨rfl, rfl⟩
  | cons t ts ih =>
    intro c
    rw [scanList_cons, scanList_cons]
    by_cases hb : (v.total_frames : Int) ≤ frameIdxAt v t
    · rw [if_pos hb, if_pos hb]
      exact ⟨rfl, rfl⟩
    · rw [if_neg hb, if_neg hb]
      cases hdec : v.decode (frameIdxAt v t) with
      | none => exact ih c
      | some p =>
        obtain ⟨img, faces⟩ := p
        cases hfq : findQualifyingFace img faces with
        | none =>
          simp only [hfq]
          exact ih (c + 1)
        | some f =>
          simp only [hfq]
          exact ⟨rfl, rfl⟩

/-! The claims. -/

/-- C3: every face candidate that passes the size gate (area ratio at
least 9 percent) and has at least 2 eyes detected has total score at
least 77 = 27 + 0 + 50, hence strictly above MIN_SCORE = 75, so the
score-too-low rejection branch is unreachable: the face qualifies. -/
theorem c3_score_gate_never_rejects (img : Image) (f : FaceDet)
    (hsize : ¬(areaRatioOf f img < MIN_FACE_SIZE)) (heyes : 2 ≤ f.eyes) :
    (77 : Rat) ≤ totalScore f img ∧ MIN_SCORE < totalScore f img ∧
      faceQualifies img f = true := by
  have hr : MIN_FACE_SIZE ≤ areaRatioOf f img := not_lt.mp hsize
  have hr27 : (27 : Rat) ≤ areaRatioOf f img * 300 := by
    have := mul_le_mul_of_nonneg_right hr (show (0 : Rat) ≤ 300 by norm_num)
    unfold MIN_FACE_SIZE at this
    linarith
  have hsz : (27 : Rat) ≤ sizeScore (areaRatioOf f img) := by
    unfold sizeScore
    exact le_min (by norm_num) hr27
  have hpos : (0 : Rat) ≤ positionScore (centerDistOf f img) := le_max_left 0 _
  have htot : (77 : Rat) ≤ totalScore f img := by
    unfold totalScore scoreOf frontalScore
    linarith
  have hgt : MIN_SCORE < totalScore f img := by
    unfold MIN_SCORE
    linarith
  refine ⟨htot, hgt, ?_⟩
  have h1 : sizeGateRejects (areaRatioOf f img) = false := by
    unfold sizeGateRejects
    exact decide_eq_false hsize
  have h2 : scoreGateAccepts (totalScore f img) = true := by
    unfold scoreGateAccepts
    exact decide_eq_true (le_of_lt hgt)
  unfold faceQualifies
  simp [h1, heyes, h2]

/-- Witness for C3 at a concrete face covering exactly 9 percent of a
100 x 100 frame, centered, with both eyes found. -/
theorem c3_witness :
    (77 : Rat) ≤ totalScore face30 img100 ∧
      MIN_SCORE < totalScore face30 img100 ∧
      faceQualifies img100 face30 = true :=
  c3_score_gate_never_rejects img100 face30 (by decide) (by decide)

/-- C4: on every exit path of the selector no opened video handle is left
unreleased: on the success and exhaustion paths cap.release() is invoked,
and on the failure-to-open path the function returns false at once with
no decoder session held (the capture never opened, so there is nothing to
release). -/
theorem c4_handle_released (v : Video) (out : String) (start interval : Rat) :
    (selectFace v out start interval).handleLeaked = false ∧
    (v.isOpened = true →
      (selectFace v out start interval).releaseCalled = true) ∧
    (v.isOpened = false →
      (selectFace v out start interval).outcome = SelOutcome.openFail ∧
      (selectFace v out start interval).success = false) := by
  refine ⟨?_, ?_, ?_⟩
  · unfold selectFace RunResult.handleLeaked
    cases ho : v.isOpened <;> simp [ho]
  · intro ho
    unfold selectFace
    simp [ho]
  · intro ho
    unfold selectFace RunResult.success
    simp [ho, SelOutcome.isFound]

/-- Witness for C4 on a concrete opened video. -/
theorem c4_witness :
    (selectFace vScan30 outP 10 2).handleLeaked = false ∧
    (selectFace vScan30 outP 10 2).releaseCalled = true :=
  ⟨(c4_handle_released vScan30 outP 10 2).1,
   (c4_handle_released vScan30 outP 10 2).2.1 rfl⟩

set_option maxHeartbeats 2000000 in
/-- C5: for a 30 second video at fps 30 scanned with start_time 10 and
interval 2, the sampled timestamps are exactly 10, 12, ..., 28 (10
samples), each with frame index floor(t * fps) below the total frame
count; when no sampled frame yields a qualifying face the function
returns false after checking all 10 samples and the process exits 1. -/
theorem c5_scenario_30s :
    numSamples vScan30 10 2 = 10 ∧
    sampleTimes vScan30 10 2 = [10, 12, 14, 16, 18, 20, 22, 24, 26, 28] ∧
    (sampleTimes vScan30 10 2).map (frameIdxAt vScan30) =
      [300, 360, 420, 480, 540, 600, 660, 720, 780, 840] ∧
    ((sampleTimes vScan30 10 2).map (frameIdxAt vScan30)).all
      (fun i => i < (vScan30.total_frames : Int)) = true ∧
    (selectFace vScan30 outP 10 2).outcome = SelOutcome.noFace 10 ∧
    (selectFace vScan30 outP 10 2).success = false ∧
    mainExit true true vScan30 outP = 1 := by
  exact ⟨by decide, by decide, by decide, by decide, by decide, by decide,
    by decide⟩

/-- C6: the gate boundaries are inclusive for passing: the size gate does
not reject an area ratio exactly equal to MIN_FACE_SIZE = 0.09, the score
gate accepts a total score exactly equal to MIN_SCORE = 75, and a
concrete face whose area ratio is exactly 0.09 qualifies. -/
theorem c6_inclusive_boundaries :
    sizeGateRejects MIN_FACE_SIZE = false ∧
    scoreGateAccepts MIN_SCORE = true ∧
    areaRatioOf face30 img100 = 9 / 100 ∧
    faceQualifies img100 face30 = true := by
  exact ⟨by decide, by decide, by decide, by decide⟩

/-- C7: the total score is monotone nondecreasing in the area ratio
(holding the center distance fixed), the position score is antitone in
the center distance, and the position score is never negative. -/
theorem c7_score_monotonicity (r1 r2 d1 d2 d : Rat) :
    (r1 ≤ r2 → scoreOf r1 d ≤ scoreOf r2 d) ∧
    (d1 ≤ d2 → positionScore d2 ≤ positionScore d1) ∧
    0 ≤ positionScore d := by
  refine ⟨?_, ?_, le_max_left 0 _⟩
  · intro h
    have hsz : sizeScore r1 ≤ sizeScore r2 := by
      unfold sizeScore
      exact min_le_min (le_refl 30)
        (mul_le_mul_of_nonneg_right h (by norm_num))
    unfold scoreOf
    linarith
  · intro h
    unfold positionScore
    exact max_le_max (le_refl 0) (by linarith)

/-- Witness for C7 at concrete metric values. -/
theorem c7_witness :
    (scoreOf 0 0 ≤ scoreOf 1 0) ∧
    (positionScore 1 ≤ positionScore 0) ∧
    (0 ≤ positionScore 1) :=
  ⟨(c7_score_monotonicity 0 1 0 1 1).1 (by norm_num),
   (c7_score_monotonicity 0 1 0 1 1).2.1 (by norm_num),
   (c7_score_monotonicity 0 1 0 1 1).2.2⟩

/-- C9: the duration is total_frames / fps with 0 for fps = 0; with a
reported fps of 0 and a nonnegative start time the loop condition fails
immediately, no frame is checked, and the selector returns false. -/
theorem c9_zero_fps (v : Video) (out : String) (start interval : Rat)
    (hfps : v.fps = 0) (hs : 0 ≤ start) :
    duration v = 0 ∧ sampleTimes v start interval = [] ∧
    (selectFace v out start interval).success = false ∧
    (v.isOpened = true →
      (selectFace v out start interval).outcome = SelOutcome.noFace 0) := by
  have hd : duration v = 0 := by
    unfold duration
    rw [hfps]
    norm_num
  have hN : numSamples v start interval = 0 := by
    unfold numSamples
    by_cases hi : 0 < interval
    · rw [if_pos hi, hd]
      have h1 : (0 - start) / interval ≤ 0 :=
        div_nonpos_iff.mpr (Or.inr ⟨by linarith, hi.le⟩)
      have h2 : ⌈(0 - start) / interval⌉ ≤ 0 := by
        rw [Int.ceil_le]
        push_cast
        exact h1
      exact Int.toNat_of_nonpos h2
    · rw [if_neg hi]
  have hst : sampleTimes v start interval = [] := by
    unfold sampleTimes
    rw [hN]
    rfl
  refine ⟨hd, hst, ?_, ?_⟩
  · unfold selectFace RunResult.success
    cases ho : v.isOpened with
    | false => simp [ho, SelOutcome.isFound]
    | true => simp [ho, hst, scanList, SelOutcome.isFound]
  · intro ho
    unfold selectFace
    simp [ho, hst, scanList]

/-- Witness for C9 on a concrete opened video reporting fps = 0. -/
theorem c9_witness :
    duration vZeroFps = 0 ∧ sampleTimes vZeroFps 10 2 = [] ∧
    (selectFace vZeroFps outP 10 2).success = false ∧
    (vZeroFps.isOpened = true →
      (selectFace vZeroFps outP 10 2).outcome = SelOutcome.noFace 0) :=
  c9_zero_fps vZeroFps outP 10 2 rfl (by norm_num)

/-- C10: with the decoder and the cascade detectors modelled as
deterministic functions, the selector is a pure function of the video and
the scan parameters: the selected source frame index and the boolean
result do not depend on the output path, so two runs on the same video
with the same parameters agree on both. -/
theorem c10_deterministic (v : Video) (start interval : Rat)
    (o1 o2 : String) :
    (selectFace v o1 start interval).selectedFrame =
      (selectFace v o2 start interval).selectedFrame ∧
    (selectFace v o1 start interval).success =
      (selectFace v o2 start interval).success := by
  unfold selectFace RunResult.selectedFrame RunResult.success
  cases ho : v.isOpened with
  | false => exact ⟨rfl, rfl⟩
  | true =>
    simp only [ho, if_true]
    exact scanList_indep v o1 o2 (sampleTimes v start interval) 0

/-- C8: when no sampled frame yields a qualifying face the selector
returns false and records no image write; and, for every run, an image
write is only ever recorded on the success path. -/
theorem c8_no_write_without_success (v : Video) (out : String)
    (start interval : Rat) :
    ((∀ t ∈ sampleTimes v start interval, frameQualifies v t = false) →
      (selectFace v out start interval).success = false ∧
      (selectFace v out start interval).written = none) ∧
    (∀ wr, (selectFace v out start interval).written = some wr →
      (selectFace v out start interval).success = true) := by
  constructor
  · intro h
    unfold selectFace RunResult.success RunResult.written
    cases ho : v.isOpened with
    | false => simp [ho, SelOutcome.isFound, SelOutcome.writeOf]
    | true =>
      obtain ⟨c2, hc2⟩ := scanList_noqual v out (sampleTimes v start interval) 0 h
      simp [ho, hc2, SelOutcome.isFound, SelOutcome.writeOf]
  · intro wr hw
    unfold RunResult.written at hw
    unfold RunResult.success
    cases hout : (selectFace v out start interval).outcome with
    | openFail => rw [hout] at hw; simp [SelOutcome.writeOf] at hw
    | noFace c => rw [hout] at hw; simp [SelOutcome.writeOf] at hw
    | found i f w c => rfl

/-- Witness for C8 on a concrete video none of whose frames has a face. -/
theorem c8_witness :
    (selectFace vScan30 outP 10 2).success = false ∧
    (selectFace vScan30 outP 10 2).written = none :=
  (c8_no_write_without_success vScan30 outP 10 2).1 (by decide)

/-- C1: if some sampled timestamp (nonnegative start, positive interval)
yields a frame with a qualifying face (area ratio at least 0.09, at least
2 eyes, total score at least 75), then the selector returns true and
records a JPEG write whose image width is exactly 320, and the selected
face is the first qualifying face in detector output order within the
earliest qualifying sampled frame. -/
theorem c1_first_qualifying (v : Video) (out : String) (start interval : Rat)
    (hopen : v.isOpened = true) (hs : 0 ≤ start)
    (hex : ∃ k, k < numSamples v start interval ∧
      frameQualifies v (sampleTime start interval k) = true) :
    ∃ k img faces f c,
      k < numSamples v start interval ∧
      frameQualifies v (sampleTime start interval k) = true ∧
      (∀ j, j < k → frameQualifies v (sampleTime start interval j) = false) ∧
      v.decode (frameIdxAt v (sampleTime start interval k)) =
        some (img, faces) ∧
      findQualifyingFace img faces = some f ∧
      (selectFace v out start interval).outcome =
        SelOutcome.found (frameIdxAt v (sampleTime start interval k)) f
          (thumbWrite out img) c ∧
      (selectFace v out start interval).success = true ∧
      (thumbWrite out img).img.width = 320 := by
  classical
  obtain ⟨k1, hk1N, hq1⟩ := hex
  have hexP : ∃ k, frameQualifies v (sampleTime start interval k) = true :=
    ⟨k1, hq1⟩
  obtain ⟨k, hq, hmin0, hkle⟩ :
      ∃ k, frameQualifies v (sampleTime start interval k) = true ∧
        (∀ j, j < k →
          ¬(frameQualifies v (sampleTime start interval j) = true)) ∧
        k ≤ k1 :=
    ⟨Nat.find hexP, Nat.find_spec hexP,
      fun j hj => Nat.find_min hexP hj, Nat.find_min' hexP hq1⟩
  have hmin : ∀ j, j < k →
      frameQualifies v (sampleTime start interval j) = false := by
    intro j hj
    simpa using hmin0 j hj
  have hkN : k < numSamples v start interval := lt_of_le_of_lt hkle hk1N
  obtain ⟨img, faces, f, hdec, hf⟩ := frameQualifies_elim hq
  have hidx := frameIdx_lt_total v start interval k hs hkN
  obtain ⟨rest, hdecomp⟩ := sampleTimes_decomp v start interval k hkN
  have hpre : ∀ t ∈ (List.range k).map (sampleTime start interval),
      frameIdxAt v t < (v.total_frames : Int) ∧
      frameQualifies v t = false := by
    intro t ht
    obtain ⟨j, hj, rfl⟩ := List.mem_map.mp ht
    have hjk := List.mem_range.mp hj
    exact ⟨frameIdx_lt_total v start interval j hs (lt_trans hjk hkN),
      hmin j hjk⟩
  obtain ⟨c2, hc2⟩ := scanList_append_skip v out
    (sampleTime start interval k :: rest)
    ((List.range k).map (sampleTime start interval)) 0 hpre
  have hout : (selectFace v out start interval).outcome =
      SelOutcome.found (frameIdxAt v (sampleTime start interval k)) f
        (thumbWrite out img) (c2 + 1) := by
    unfold selectFace
    simp only [hopen, if_true]
    rw [hdecomp, hc2]
    exact scanList_cons_found v out (sampleTime start interval k) rest c2
      img faces f hidx hdec hf
  refine ⟨k, img, faces, f, c2 + 1, hkN, hq, hmin, hdec, hf, hout, ?_, rfl⟩
  unfold RunResult.success
  rw [hout]
  rfl

/-- Witness for C1 on a concrete video whose first sampled frame holds a
large centered face with both eyes found. -/
theorem c1_witness :
    ∃ k img faces f c,
      k < numSamples vQual 10 2 ∧
      frameQualifies vQual (sampleTime 10 2 k) = true ∧
      (∀ j, j < k → frameQualifies vQual (sampleTime 10 2 j) = false) ∧
      vQual.decode (frameIdxAt vQual (sampleTime 10 2 k)) =
        some (img, faces) ∧
      findQualifyingFace img faces = some f ∧
      (selectFace vQual outP 10 2).outcome =
        SelOutcome.found (frameIdxAt vQual (sampleTime 10 2 k)) f
          (thumbWrite outP img) c ∧
      (selectFace vQual outP 10 2).success = true ∧
      (thumbWrite outP img).img.width = 320 :=
  c1_first_qualifying vQual outP 10 2 rfl (by norm_num)
    ⟨0, by decide, by decide⟩

/-- C2 counterexample to round semantics: on a concrete video whose
selected frame is 960 x 701, the selector succeeds and writes a
thumbnail of height int(701 * (320 / 960)) = 233, while
round(701 * 320 / 960) = 234: the code truncates, it does not round. -/
theorem c2_counterexample :
    (selectFace vRound outP 10 2).success = true ∧
    (selectFace vRound outP 10 2).written = some (thumbWrite outP img960) ∧
    (thumbWrite outP img960).img.height = 233 ∧
    round (((img960.height : Rat) * 320) / (img960.width : Rat)) = 234 ∧
    ((thumbWrite outP img960).img.height : Int) ≠
      round (((img960.height : Rat) * 320) / (img960.width : Rat)) := by
  exact ⟨by decide, by decide, by decide, by decide, by decide⟩

/-- C2 as amended: whenever the selector records a write, it returns
true, and the written image is the resize of the original decoded color
frame (same pixel kind, not the grayscale working copy) to width 320 and
height floor(originalHeight * 320 / originalWidth) (Python int()
truncation, not rounding), encoded at JPEG quality 85 at the output
path; the selected face is the first qualifying face of that frame in
detector output order. -/
theorem c2_truncated_thumbnail (v : Video) (out : String)
    (start interval : Rat) (wr : ImwriteCall)
    (hw : (selectFace v out start interval).written = some wr) :
    (selectFace v out start interval).success = true ∧
    wr.path = out ∧ wr.quality = 85 ∧
    ∃ i img faces f c,
      (selectFace v out start interval).outcome =
        SelOutcome.found i f wr c ∧
      v.decode i = some (img, faces) ∧
      findQualifyingFace img faces = some f ∧
      wr.img = cvResize img 320 (thumbHeight img) ∧
      wr.img.kind = img.kind ∧
      wr.img.width = 320 ∧
      (wr.img.height : Int) =
        ⌊((img.height : Rat) * 320) / (img.width : Rat)⌋ := by
  have hopen : v.isOpened = true := by
    by_contra h
    have hfalse : v.isOpened = false := by simpa using h
    unfold selectFace RunResult.written at hw
    simp [hfalse, SelOutcome.writeOf] at hw
  cases hout : (selectFace v out start interval).outcome with
  | openFail =>
    unfold RunResult.written at hw
    rw [hout] at hw
    simp [SelOutcome.writeOf] at hw
  | noFace c =>
    unfold RunResult.written at hw
    rw [hout] at hw
    simp [SelOutcome.writeOf] at hw
  | found i f w c =>
    have hw2 : w = wr := by
      unfold RunResult.written at hw
      rw [hout] at hw
      simpa [SelOutcome.writeOf] using hw
    subst hw2
    have hscan : scanList v out (sampleTimes v start interval) 0 =
        SelOutcome.found i f w c := by
      unfold selectFace at hout
      simpa [hopen] using hout
    obtain ⟨img, faces, hdec, hf, hwr⟩ :=
      scanList_found_inv v out (sampleTimes v start interval) 0 i f w c hscan
    have hsucc : (selectFace v out start interval).success = true := by
      unfold RunResult.success
      rw [hout]
      rfl
    have hheight : ((thumbHeight img : Nat) : Int) =
        ⌊((img.height : Rat) * 320) / (img.width : Rat)⌋ := by
      have hnn : (0 : Rat) ≤ (img.height : Rat) * (320 / (img.width : Rat)) :=
        mul_nonneg (Nat.cast_nonneg _)
          (div_nonneg (by norm_num) (Nat.cast_nonneg _))
      unfold thumbHeight pyInt
      rw [if_pos hnn, Int.toNat_of_nonneg (Int.floor_nonneg.mpr hnn)]
      congr 1
      rw [mul_div_assoc]
    refine ⟨hsucc, ?_, ?_, i, img, faces, f, c, rfl, hdec, hf, ?_, ?_, ?_, ?_⟩
    · rw [hwr]; rfl
    · rw [hwr]; rfl
    · rw [hwr]; rfl
    · rw [hwr]; rfl
    · rw [hwr]; rfl
    · rw [hwr]
      exact hheight

/-- Witness for the amended C2 on the concrete 960 x 701 video. -/
theorem c2_witness :
    (selectFace vRound outP 10 2).success = true ∧
    (thumbWrite outP img960).path = outP ∧
    (thumbWrite outP img960).quality = 85 ∧
    ∃ i img faces f c,
      (selectFace vRound outP 10 2).outcome =
        SelOutcome.found i f (thumbWrite outP img960) c ∧
      vRound.decode i = some (img, faces) ∧
      findQualifyingFace img faces = some f ∧
      (thumbWrite outP img960).img = cvResize img 320 (thumbHeight img) ∧
      (thumbWrite outP img960).img.kind = img.kind ∧
      (thumbWrite outP img960).img.width = 320 ∧
      ((thumbWrite outP img960).img.height : Int) =
        ⌊((img.height : Rat) * 320) / (img.width : Rat)⌋ :=
  c2_truncated_thumbnail vRound outP 10 2 (thumbWrite outP img960)
    (by decide)

end FaceThumb
